import Mathlib

/-!
Verification of the design-canvas engine of the bosmaFrontend repository
(src/src/pages/Designer/DesignerPage.tsx), shallowly embedded in Lean 4.
Coordinates and sizes are modelled as rationals; JavaScript's
Math.min / Math.max / clamping patterns are translated literally.
-/

namespace Bosma

/-- Width or height pair, e.g. a source image's pixel size. -/
structure Size where
  width : ℚ
  height : ℚ
deriving DecidableEq, Repr

/-- Axis-aligned rectangle in design units: x, y is the top-left corner. -/
structure Rect where
  x : ℚ
  y : ℚ
  width : ℚ
  height : ℚ
deriving DecidableEq, Repr

/-- Placement of the mockup image inside the fixed design canvas,
as computed by the bgDraw memo in DesignerPage.tsx. -/
structure BackgroundFit where
  x : ℚ
  y : ℚ
  width : ℚ
  height : ℚ
  scale : ℚ
deriving DecidableEq, Repr

/-- Fields of a product variant consumed by the designer
(src/src/types/api.ts, interface Variant). -/
structure Variant where
  id : ℤ
  price : ℚ
  printAreaLeft : ℚ
  printAreaTop : ℚ
  printAreaWidth : ℚ
  printAreaHeight : ℚ
deriving DecidableEq, Repr

/-- Product as consumed by pickVariant: its list of variants
(a missing variants field is the empty list, `product.variants ?? []`). -/
structure Product where
  variants : List Variant
deriving DecidableEq, Repr

/-- The fixed logical design canvas width (DESIGN_W in DesignerPage.tsx). -/
def DESIGN_W : ℚ := 520

/-- The fixed logical design canvas height (DESIGN_H in DesignerPage.tsx). -/
def DESIGN_H : ℚ := 680

/-- The clamp helper at the bottom of DesignerPage.tsx:
Math.max(min, Math.min(max, v)). -/
def clamp (v lo hi : ℚ) : ℚ := max lo (min hi v)

/-- The bgDraw memo of DesignerPage.tsx, generalised over the canvas size
exactly as the spec names it (fitBackground): scale is the smaller of the
two axis ratios and the scaled image is centered in the canvas. -/
def fitBackground (img : Size) (canvas : Size) : BackgroundFit :=
  let scale := min (canvas.width / img.width) (canvas.height / img.height)
  let width := img.width * scale
  let height := img.height * scale
  { x := (canvas.width - width) / 2
    y := (canvas.height - height) / 2
    width := width
    height := height
    scale := scale }

/-- The bgDraw memo itself: fitBackground at the fixed 520x680 canvas. -/
def bgDraw (img : Size) : BackgroundFit :=
  fitBackground img { width := DESIGN_W, height := DESIGN_H }

/-- The safeZone memo of DesignerPage.tsx: the variant's print area,
given in the mockup image's own pixel space, mapped through the
background fit into design units. -/
def computeSafeZone (variant : Variant) (bg : BackgroundFit) (img : Size) : Rect :=
  let sx := bg.width / img.width
  let sy := bg.height / img.height
  { x := bg.x + variant.printAreaLeft * sx
    y := bg.y + variant.printAreaTop * sy
    width := variant.printAreaWidth * sx
    height := variant.printAreaHeight * sy }

/-- The rectangle r lies (non-strictly) inside the rectangle zone. -/
def rectInZone (r zone : Rect) : Prop :=
  zone.x ≤ r.x ∧ zone.y ≤ r.y ∧
    r.x + r.width ≤ zone.x + zone.width ∧ r.y + r.height ≤ zone.y + zone.height

instance (r zone : Rect) : Decidable (rectInZone r zone) := by
  unfold rectInZone
  exact inferInstance

/-- A placed image item (type DesignImageItem in DesignerPage.tsx).
Rotation is in degrees, as stored by the code. -/
structure ImageItem where
  id : String
  url : String
  x : ℚ
  y : ℚ
  width : ℚ
  height : ℚ
  rotation : ℚ
deriving DecidableEq, Repr

/-- A placed text item (type DesignTextItem in DesignerPage.tsx). -/
structure TextItem where
  id : String
  text : String
  x : ℚ
  y : ℚ
  rotation : ℚ
  fontSize : ℚ
  fontFamily : String
  fill : String
deriving DecidableEq, Repr

/-- The tagged union DesignObject = DesignImageItem | DesignTextItem. -/
inductive DesignObject where
  | image (item : ImageItem)
  | text (item : TextItem)
deriving DecidableEq, Repr

/-- The id of a design object, either variant. -/
def objId : DesignObject → String
  | .image item => item.id
  | .text item => item.id

/-- The designer session state: the objects list (z-order = insertion
order) and the currently selected id, as held in React state. -/
structure Session where
  objects : List DesignObject
  selectedId : Option String
deriving DecidableEq, Repr

/-- The axis-aligned bounding box of a w-by-h node positioned with its
rotation pivot at (x, y) and rotated by an angle whose cosine is c and
whose sine is s (Konva rotates an un-offset node about its top-left
corner). The four corner offsets are the pairwise sums of \x7b0, w*c\x7d with
\x7b0, -h*s\x7d horizontally and of \x7b0, w*s\x7d with \x7b0, h*c\x7d vertically. -/
def rotatedBBox (x y w h c s : ℚ) : Rect :=
  let lox := min 0 (w * c) + min 0 (-(h * s))
  let hix := max 0 (w * c) + max 0 (-(h * s))
  let loy := min 0 (w * s) + min 0 (h * c)
  let hiy := max 0 (w * s) + max 0 (h * c)
  { x := x + lox, y := y + loy, width := hix - lox, height := hiy - loy }

/-- The bounding box of an image item, given the cosine and sine of its
stored rotation angle. -/
def imageBBox (item : ImageItem) (c s : ℚ) : Rect :=
  rotatedBBox item.x item.y item.width item.height c s

/-- DesignImage.onDragMove with onDragEnd: every move event clamps the
node position with the node's width and height (which equal the stored
item width and height; rotation does not change them), and onDragEnd
commits the clamped position.  px, py is the raw dragged position. -/
def imageDragCommit (zone : Rect) (item : ImageItem) (px py : ℚ) : ImageItem :=
  { item with
      x := clamp px zone.x (zone.x + zone.width - item.width)
      y := clamp py zone.y (zone.y + zone.height - item.height) }

/-- DesignText.onDragMove with onDragEnd: the same clamping, with w and h
the text node's rendered width and height (font-metric derived, so they
are parameters here), and the node position being the offset anchor. -/
def textDragCommit (zone : Rect) (w h : ℚ) (item : TextItem) (px py : ℚ) : TextItem :=
  { item with
      x := clamp px zone.x (zone.x + zone.width - w)
      y := clamp py zone.y (zone.y + zone.height - h) }

/-- DesignImage.onTransformEnd: read the accumulated scale, reset the node
scale to identity, enforce a 5-unit minimum on each dimension, clamp the
position against the safe zone using the new size, and commit. -/
def imageTransformEnd (zone : Rect) (item : ImageItem)
    (nodeX nodeY scaleX scaleY nodeRotation : ℚ) : ImageItem :=
  let nextWidth := max 5 (item.width * scaleX)
  let nextHeight := max 5 (item.height * scaleY)
  let maxX := zone.x + zone.width
  let maxY := zone.y + zone.height
  { item with
      x := clamp nodeX zone.x (maxX - nextWidth)
      y := clamp nodeY zone.y (maxY - nextHeight)
      width := nextWidth
      height := nextHeight
      rotation := nodeRotation }

/-- The id string built for a freshly uploaded image in
onUploadFileSelected: img_ then Date.now() then _ then a random hex
suffix. Both time and randomness are parameters of the embedding. -/
def mkImageId (now : ℕ) (rand : String) : String :=
  "img_" ++ toString now ++ "_" ++ rand

/-- The id string built for a new text item in addText. -/
def mkTextId (now : ℕ) (rand : String) : String :=
  "txt_" ++ toString now ++ "_" ++ rand

/-- The image item created by onUploadFileSelected once the asset upload
resolves: a square of side min(240, safeZone.width), centered in the safe
zone on both axes (the height is never compared with safeZone.height). -/
def newUploadImage (zone : Rect) (url : String) (now : ℕ) (rand : String) : ImageItem :=
  let initialW := min 240 zone.width
  let initialH := initialW
  { id := mkImageId now rand
    url := url
    x := zone.x + (zone.width - initialW) / 2
    y := zone.y + (zone.height - initialH) / 2
    width := initialW
    height := initialH
    rotation := 0 }

/-- The state change of onUploadFileSelected: append the new image and
select its id. -/
def uploadImage (zone : Rect) (url : String) (now : ℕ) (rand : String)
    (s : Session) : Session :=
  { objects := s.objects ++ [DesignObject.image (newUploadImage zone url now rand)]
    selectedId := some (mkImageId now rand) }

/-- The text item created by addText: the default text at the safe zone's
center point (x, y are the item's visual center thanks to the offset). -/
def newTextItem (zone : Rect) (now : ℕ) (rand : String) : TextItem :=
  { id := mkTextId now rand
    text := "Your text"
    x := zone.x + zone.width / 2
    y := zone.y + zone.height / 2
    rotation := 0
    fontSize := 36
    fontFamily := "Roboto"
    fill := "#ffffff" }

/-- The state change of addText: append the new text item and select it. -/
def addText (zone : Rect) (now : ℕ) (rand : String) (s : Session) : Session :=
  { objects := s.objects ++ [DesignObject.text (newTextItem zone now rand)]
    selectedId := some (mkTextId now rand) }

/-- deleteSelected in DesignerPage.tsx: when something is selected, filter
it out of the objects list and clear the selection; otherwise no-op. -/
def deleteSelected (s : Session) : Session :=
  match s.selectedId with
  | none => s
  | some i => { objects := s.objects.filter (fun o => objId o ≠ i), selectedId := none }

/-- Modelled from the spec: the general removeObject(id) operation of
section 4.2 is not present in src (the code only exposes deleteSelected,
its specialisation to the selected id); removes the object with the given
id and clears the selection exactly when that id was selected. -/
def removeObject (s : Session) (i : String) : Session :=
  { objects := s.objects.filter (fun o => objId o ≠ i)
    selectedId := if s.selectedId = some i then none else s.selectedId }

/-- centerHorizontally: recenter the selected object's x in the safe zone;
images center their box, text centers its anchor point. -/
def centerHorizontally (zone : Rect) (s : Session) : Session :=
  match s.selectedId with
  | none => s
  | some i =>
    { s with objects := s.objects.map (fun o =>
        if objId o = i then
          match o with
          | .image item => .image { item with x := zone.x + (zone.width - item.width) / 2 }
          | .text item => .text { item with x := zone.x + zone.width / 2 }
        else o) }

/-- centerVertically: recenter the selected object's y in the safe zone. -/
def centerVertically (zone : Rect) (s : Session) : Session :=
  match s.selectedId with
  | none => s
  | some i =>
    { s with objects := s.objects.map (fun o =>
        if objId o = i then
          match o with
          | .image item => .image { item with y := zone.y + (zone.height - item.height) / 2 }
          | .text item => .text { item with y := zone.y + zone.height / 2 }
        else o) }

/-- The patch accepted by updateSelectedText (the call sites only ever
patch text, fill, fontSize or fontFamily; the id is never touched). -/
structure TextPatch where
  text : Option String := none
  fill : Option String := none
  fontSize : Option ℚ := none
  fontFamily : Option String := none

/-- Applying a patch to a text item, spread-style. -/
def applyTextPatch (p : TextPatch) (t : TextItem) : TextItem :=
  { t with
      text := p.text.getD t.text
      fill := p.fill.getD t.fill
      fontSize := p.fontSize.getD t.fontSize
      fontFamily := p.fontFamily.getD t.fontFamily }

/-- updateSelectedText: patch the selected object when it is a text item,
leaving every other object (and any selected image) unchanged. -/
def updateSelectedText (p : TextPatch) (s : Session) : Session :=
  match s.selectedId with
  | none => s
  | some i =>
    { s with objects := s.objects.map (fun o =>
        if objId o = i then
          match o with
          | .image item => .image item
          | .text item => .text (applyTextPatch p item)
        else o) }

/-- pickVariant in DesignerPage.tsx. The code tests the requested id with
JavaScript falsiness (!variantId), so a requested id of 0 is treated like
an absent one; otherwise the first variant with a matching id is returned,
falling back to the first variant. -/
def pickVariant (product : Product) (variantId : Option ℤ) : Option Variant :=
  match product.variants, variantId with
  | [], _ => none
  | v :: _, none => some v
  | v :: vs, some n =>
    if n = 0 then some v
    else some (((v :: vs).find? (fun w => w.id == n)).getD v)

/-- Result of DesignText.onTransformEnd: the committed item together with
the node scale left behind (the handler resets it to identity). -/
structure TextTransformResult where
  item : TextItem
  nodeScaleX : ℚ
  nodeScaleY : ℚ
deriving DecidableEq, Repr

/-- DesignText.onTransformEnd: read scaleX only, reset the node scale to
identity, commit Math.max(12, Math.min(100, fontSize * scaleX)) as the new
font size together with the node position and rotation (unclamped). -/
def textTransformEnd (item : TextItem)
    (nodeX nodeY nodeRotation scaleX : ℚ) : TextTransformResult :=
  { item := { item with
                x := nodeX
                y := nodeY
                rotation := nodeRotation
                fontSize := max 12 (min 100 (item.fontSize * scaleX)) }
    nodeScaleX := 1
    nodeScaleY := 1 }

/-- Observable state of the add-to-cart orchestration: the in-flight flag
(React state isAddingToCart) plus counters of the network calls issued so
far (uploadAsset on the preview file, and the cart-add POST). -/
structure CartState where
  isAddingToCart : Bool
  uploads : ℕ
  cartAdds : ℕ
deriving DecidableEq, Repr

/-- One trigger of doAddToCart (with an authenticated user and a loaded
product and variant): if the in-flight flag is already set the call
returns without doing anything; otherwise the flag is set and the body
runs, issuing exactly one preview upload and one cart-add call. -/
def triggerAddToCart (s : CartState) : CartState :=
  if s.isAddingToCart then s
  else { isAddingToCart := true, uploads := s.uploads + 1, cartAdds := s.cartAdds + 1 }

/-- Completion of the in-flight doAddToCart body: the finally block
clears the flag (whether the calls succeeded or failed). -/
def finishAddToCart (s : CartState) : CartState :=
  { s with isAddingToCart := false }

/-- One mutation step of the designer session, as the event handlers of
DesignerPage.tsx perform them. The commit constructor covers the onChange
commits of drag end and transform end: the object with the committed
item's id is replaced and all other objects are untouched, and every
handler commits an item carrying the id of the item it was handed. -/
inductive Step : Session → Session → Prop
  | upload (zone : Rect) (url : String) (now : ℕ) (rand : String) (s : Session) :
      Step s (uploadImage zone url now rand s)
  | text (zone : Rect) (now : ℕ) (rand : String) (s : Session) :
      Step s (addText zone now rand s)
  | selectObject (s : Session) (o : DesignObject) (h : o ∈ s.objects) :
      Step s { s with selectedId := some (objId o) }
  | deselect (s : Session) :
      Step s { s with selectedId := none }
  | delete (s : Session) :
      Step s (deleteSelected s)
  | centerH (zone : Rect) (s : Session) :
      Step s (centerHorizontally zone s)
  | centerV (zone : Rect) (s : Session) :
      Step s (centerVertically zone s)
  | updateText (p : TextPatch) (s : Session) :
      Step s (updateSelectedText p s)
  | commit (s : Session) (next : DesignObject) :
      Step s { s with objects := s.objects.map (fun o =>
        if objId o = objId next then next else o) }

/-- The empty session a designer visit starts from. -/
def initialSession : Session := { objects := [], selectedId := none }

/-- Sessions reachable from the empty session by handler steps. -/
def Reachable (s : Session) : Prop :=
  Relation.ReflTransGen Step initialSession s

/-- The selection invariant: a set selectedId names an object that is
present in the objects list. -/
def SelectedValid (s : Session) : Prop :=
  ∀ i, s.selectedId = some i → ∃ o ∈ s.objects, objId o = i

/-- The clamp helper never goes below its lower bound. -/
lemma clamp_lower (v lo hi : ℚ) : lo ≤ clamp v lo hi := le_max_left _ _

/-- The clamp helper stays below its upper bound whenever the bounds are
ordered. -/
lemma clamp_upper (v lo hi : ℚ) (h : lo ≤ hi) : clamp v lo hi ≤ hi :=
  max_le h (min_le_left _ _)

/-- With rotation 0 (cosine 1, sine 0) and nonnegative dimensions, the
rotated bounding box is the plain axis-aligned rectangle. -/
lemma rotatedBBox_id (x y w h : ℚ) (hw : 0 ≤ w) (hh : 0 ≤ h) :
    rotatedBBox x y w h 1 0 = { x := x, y := y, width := w, height := h } := by
  simp [rotatedBBox, min_eq_left hw, max_eq_right hw, min_eq_left hh, max_eq_right hh]

/-- C2: the claim's concrete scenario fails on the code. For a 1000-by-1000
background in the 520-by-680 canvas the fitted height is 520, so the
vertical letterbox offset is (680 - 520) / 2 = 80, not the claimed 85
(while width, height and x are as claimed). -/
theorem fitBackground_1000_y_ne_85 :
    (fitBackground ⟨1000, 1000⟩ ⟨520, 680⟩).width = 520 ∧
      (fitBackground ⟨1000, 1000⟩ ⟨520, 680⟩).height = 520 ∧
      (fitBackground ⟨1000, 1000⟩ ⟨520, 680⟩).x = 0 ∧
      (fitBackground ⟨1000, 1000⟩ ⟨520, 680⟩).y ≠ 85 := by
  simp only [fitBackground]
  norm_num

/-- C2 (amended): fitBackground on a 1000-by-1000 image and the 520-by-680
canvas yields width = height = 520, x = 0 and y = 80, and in general the
scale is min(canvasW/imgW, canvasH/imgH), the fitted size is the image
size times that scale, and the fitted image is centered in the canvas
(equal margins on each axis). -/
theorem fitBackground_spec :
    fitBackground ⟨1000, 1000⟩ ⟨520, 680⟩ = ⟨0, 80, 520, 520, 13 / 25⟩ ∧
      ∀ img canvas : Size,
        (fitBackground img canvas).scale =
            min (canvas.width / img.width) (canvas.height / img.height) ∧
          (fitBackground img canvas).width = img.width * (fitBackground img canvas).scale ∧
          (fitBackground img canvas).height = img.height * (fitBackground img canvas).scale ∧
          2 * (fitBackground img canvas).x + (fitBackground img canvas).width = canvas.width ∧
          2 * (fitBackground img canvas).y + (fitBackground img canvas).height = canvas.height := by
  constructor
  · simp only [fitBackground]
    norm_num
  · intro img canvas
    refine ⟨rfl, rfl, rfl, ?_, ?_⟩ <;> simp only [fitBackground] <;> ring

/-- C3: the claim's concrete scenario fails on the code. With the
background fit of a 1000-by-1000 image in the 520-by-680 canvas
(vertical offset 80) and print area left 100, top 100, width 800,
height 800, the safe zone's y is 80 + 100 * 0.52 = 132: off the claimed
137 by 5, which is far beyond rounding for exact rational arithmetic
(x, width and height are 52, 416, 416 as claimed). -/
theorem computeSafeZone_scenario_y_ne_137 :
    (computeSafeZone ⟨1, 0, 100, 100, 800, 800⟩ (bgDraw ⟨1000, 1000⟩) ⟨1000, 1000⟩).x = 52 ∧
      (computeSafeZone ⟨1, 0, 100, 100, 800, 800⟩ (bgDraw ⟨1000, 1000⟩) ⟨1000, 1000⟩).width = 416 ∧
      (computeSafeZone ⟨1, 0, 100, 100, 800, 800⟩ (bgDraw ⟨1000, 1000⟩) ⟨1000, 1000⟩).height = 416 ∧
      (computeSafeZone ⟨1, 0, 100, 100, 800, 800⟩ (bgDraw ⟨1000, 1000⟩) ⟨1000, 1000⟩).y = 132 ∧
      ¬ |(computeSafeZone ⟨1, 0, 100, 100, 800, 800⟩ (bgDraw ⟨1000, 1000⟩) ⟨1000, 1000⟩).y
          - 137| < 5 := by
  simp only [computeSafeZone, bgDraw, fitBackground, DESIGN_W, DESIGN_H]
  norm_num

/-- C3 (amended): the scenario safe zone is exactly x = 52, y = 132,
width = 416, height = 416, and in general each safe-zone field follows
the rule safeZone.x = backgroundFit.x + printAreaLeft * sx with
sx = backgroundFit.width / sourceImageWidth (and analogously in y). -/
theorem computeSafeZone_spec :
    computeSafeZone ⟨1, 0, 100, 100, 800, 800⟩ (bgDraw ⟨1000, 1000⟩) ⟨1000, 1000⟩ =
        ⟨52, 132, 416, 416⟩ ∧
      ∀ (variant : Variant) (bg : BackgroundFit) (img : Size),
        (computeSafeZone variant bg img).x =
            bg.x + variant.printAreaLeft * (bg.width / img.width) ∧
          (computeSafeZone variant bg img).y =
            bg.y + variant.printAreaTop * (bg.height / img.height) ∧
          (computeSafeZone variant bg img).width =
            variant.printAreaWidth * (bg.width / img.width) ∧
          (computeSafeZone variant bg img).height =
            variant.printAreaHeight * (bg.height / img.height) := by
  constructor
  · simp only [computeSafeZone, bgDraw, fitBackground, DESIGN_W, DESIGN_H]
    norm_num
  · intro variant bg img
    exact ⟨rfl, rfl, rfl, rfl⟩

/-- C4: each drag-move event clamps the node's top-left so that the full
w-by-h box lies within the safe zone (whenever the box can fit at all),
and the committed drag position for a 240-by-240 image dragged to
(-50, -50) inside the safe zone at (52, 137, 416, 416) is (52, 137). -/
theorem imageDragCommit_in_zone :
    (∀ (zone : Rect) (item : ImageItem) (px py : ℚ),
        item.width ≤ zone.width → item.height ≤ zone.height →
        zone.x ≤ (imageDragCommit zone item px py).x ∧
          (imageDragCommit zone item px py).x + item.width ≤ zone.x + zone.width ∧
          zone.y ≤ (imageDragCommit zone item px py).y ∧
          (imageDragCommit zone item px py).y + item.height ≤ zone.y + zone.height) ∧
      (imageDragCommit ⟨52, 137, 416, 416⟩ ⟨"img_1_a", "u", 100, 200, 240, 240, 0⟩
          (-50) (-50)).x = 52 ∧
      (imageDragCommit ⟨52, 137, 416, 416⟩ ⟨"img_1_a", "u", 100, 200, 240, 240, 0⟩
          (-50) (-50)).y = 137 := by
  refine ⟨?_, ?_, ?_⟩
  · intro zone item px py hw hh
    refine ⟨clamp_lower _ _ _, ?_, clamp_lower _ _ _, ?_⟩
    · have := clamp_upper px zone.x (zone.x + zone.width - item.width) (by linarith)
      simp only [imageDragCommit]
      linarith
    · have := clamp_upper py zone.y (zone.y + zone.height - item.height) (by linarith)
      simp only [imageDragCommit]
      linarith
  · simp only [imageDragCommit, clamp]
    norm_num
  · simp only [imageDragCommit, clamp]
    norm_num

/-- C4 witness: the general clamping statement applied at the scenario
input, with the fit hypotheses discharged concretely. -/
theorem imageDragCommit_in_zone_witness :
    52 ≤ (imageDragCommit ⟨52, 137, 416, 416⟩ ⟨"img_1_a", "u", 100, 200, 240, 240, 0⟩
        (-50) (-50)).x ∧
      (imageDragCommit ⟨52, 137, 416, 416⟩ ⟨"img_1_a", "u", 100, 200, 240, 240, 0⟩
          (-50) (-50)).x + 240 ≤ 52 + 416 ∧
      137 ≤ (imageDragCommit ⟨52, 137, 416, 416⟩ ⟨"img_1_a", "u", 100, 200, 240, 240, 0⟩
          (-50) (-50)).y ∧
      (imageDragCommit ⟨52, 137, 416, 416⟩ ⟨"img_1_a", "u", 100, 200, 240, 240, 0⟩
          (-50) (-50)).y + 240 ≤ 137 + 416 :=
  imageDragCommit_in_zone.1 ⟨52, 137, 416, 416⟩ ⟨"img_1_a", "u", 100, 200, 240, 240, 0⟩
    (-50) (-50) (by norm_num) (by norm_num)

/-- C5: a completed text resize commits fontSize clamp(fontSize * scaleX,
12, 100) and resets the node scale to identity; resizing from fontSize 36
by scaleX = 4 commits 100, not 144. -/
theorem textTransformEnd_spec :
    (∀ (item : TextItem) (nX nY nR sX : ℚ),
        (textTransformEnd item nX nY nR sX).item.fontSize =
            clamp (item.fontSize * sX) 12 100 ∧
          (textTransformEnd item nX nY nR sX).nodeScaleX = 1 ∧
          (textTransformEnd item nX nY nR sX).nodeScaleY = 1) ∧
      (textTransformEnd ⟨"txt_1_a", "Your text", 10, 20, 0, 36, "Roboto", "#ffffff"⟩
          10 20 0 4).item.fontSize = 100 := by
  refine ⟨fun item nX nY nR sX => ⟨rfl, rfl, rfl⟩, ?_⟩
  simp only [textTransformEnd]
  norm_num

/-- C1: the claim fails for non-zero rotations. The drag clamp uses the
node's unrotated width and height and its pivot position, so a 240-by-240
image with rotation 90 degrees (cosine 0, sine 1), dragged to (-50, -50)
in the safe zone at (52, 137, 416, 416), commits at pivot (52, 137) while
its axis-aligned bounding box starts at x = 52 - 240 = -188, outside the
zone. -/
theorem imageDragCommit_rotated_escapes :
    (imageDragCommit ⟨52, 137, 416, 416⟩ ⟨"img_1_a", "u", 100, 200, 240, 240, 90⟩
        (-50) (-50)).rotation = 90 ∧
      ¬ rectInZone
          (imageBBox
            (imageDragCommit ⟨52, 137, 416, 416⟩ ⟨"img_1_a", "u", 100, 200, 240, 240, 90⟩
              (-50) (-50)) 0 1)
          ⟨52, 137, 416, 416⟩ := by
  constructor
  · rfl
  · simp only [rectInZone, imageBBox, rotatedBBox, imageDragCommit, clamp]
    norm_num

/-- C1 (amended): for rotation 0 the clamps do keep the box inside the
zone: an unrotated image's bounding box lies within the safe zone after a
drag completion (when its size fits the zone) and after a resize
completion committing rotation 0 (when the committed size fits the zone);
an image resize never commits a width or height below 5; a text resize
never commits a fontSize below 12 or above 100; and a text drag commits an
anchor position at which the node's rendered w-by-h extent lies within the
zone.  For non-zero rotation the containment fails, as the clamps ignore
the rotated bounding box. -/
theorem clamped_commits_spec :
    (∀ (zone : Rect) (item : ImageItem) (px py : ℚ),
        0 ≤ item.width → item.width ≤ zone.width →
        0 ≤ item.height → item.height ≤ zone.height →
        rectInZone (imageBBox (imageDragCommit zone item px py) 1 0) zone) ∧
      (∀ (zone : Rect) (item : ImageItem) (nX nY sX sY : ℚ),
        max 5 (item.width * sX) ≤ zone.width →
        max 5 (item.height * sY) ≤ zone.height →
        rectInZone (imageBBox (imageTransformEnd zone item nX nY sX sY 0) 1 0) zone) ∧
      (∀ (zone : Rect) (item : ImageItem) (nX nY sX sY nR : ℚ),
        5 ≤ (imageTransformEnd zone item nX nY sX sY nR).width ∧
          5 ≤ (imageTransformEnd zone item nX nY sX sY nR).height) ∧
      (∀ (item : TextItem) (nX nY nR sX : ℚ),
        12 ≤ (textTransformEnd item nX nY nR sX).item.fontSize ∧
          (textTransformEnd item nX nY nR sX).item.fontSize ≤ 100) ∧
      (∀ (zone : Rect) (w h : ℚ) (item : TextItem) (px py : ℚ),
        w ≤ zone.width → h ≤ zone.height →
        zone.x ≤ (textDragCommit zone w h item px py).x ∧
          (textDragCommit zone w h item px py).x + w ≤ zone.x + zone.width ∧
          zone.y ≤ (textDragCommit zone w h item px py).y ∧
          (textDragCommit zone w h item px py).y + h ≤ zone.y + zone.height) := by
  refine ⟨?_, ?_, ?_, ?_, ?_⟩
  · intro zone item px py hw0 hw hh0 hh
    have hx := clamp_lower px zone.x (zone.x + zone.width - item.width)
    have hx' := clamp_upper px zone.x (zone.x + zone.width - item.width) (by linarith)
    have hy := clamp_lower py zone.y (zone.y + zone.height - item.height)
    have hy' := clamp_upper py zone.y (zone.y + zone.height - item.height) (by linarith)
    simp only [imageDragCommit, imageBBox, rotatedBBox_id _ _ _ _ hw0 hh0, rectInZone]
    exact ⟨hx, hy, by linarith, by linarith⟩
  · intro zone item nX nY sX sY hw hh
    have hw0 : (0 : ℚ) ≤ max 5 (item.width * sX) := le_trans (by norm_num) (le_max_left _ _)
    have hh0 : (0 : ℚ) ≤ max 5 (item.height * sY) := le_trans (by norm_num) (le_max_left _ _)
    have hx := clamp_lower nX zone.x (zone.x + zone.width - max 5 (item.width * sX))
    have hx' := clamp_upper nX zone.x (zone.x + zone.width - max 5 (item.width * sX))
      (by linarith)
    have hy := clamp_lower nY zone.y (zone.y + zone.height - max 5 (item.height * sY))
    have hy' := clamp_upper nY zone.y (zone.y + zone.height - max 5 (item.height * sY))
      (by linarith)
    simp only [imageTransformEnd, imageBBox, rotatedBBox_id _ _ _ _ hw0 hh0, rectInZone]
    exact ⟨hx, hy, by linarith, by linarith⟩
  · intro zone item nX nY sX sY nR
    exact ⟨le_max_left _ _, le_max_left _ _⟩
  · intro item nX nY nR sX
    exact ⟨le_max_left _ _, max_le (by norm_num) (min_le_left _ _)⟩
  · intro zone w h item px py hw hh
    refine ⟨clamp_lower _ _ _, ?_, clamp_lower _ _ _, ?_⟩
    · have := clamp_upper px zone.x (zone.x + zone.width - w) (by linarith)
      simp only [textDragCommit]
      linarith
    · have := clamp_upper py zone.y (zone.y + zone.height - h) (by linarith)
      simp only [textDragCommit]
      linarith

/-- C1 witness: the amended containment applied at concrete inputs, one
drag completion and one resize completion of an unrotated 240-by-240 image
in the safe zone at (52, 137, 416, 416). -/
theorem clamped_commits_spec_witness :
    rectInZone
        (imageBBox
          (imageDragCommit ⟨52, 137, 416, 416⟩ ⟨"img_1_a", "u", 100, 200, 240, 240, 0⟩
            (-50) (-50)) 1 0)
        ⟨52, 137, 416, 416⟩ ∧
      rectInZone
        (imageBBox
          (imageTransformEnd ⟨52, 137, 416, 416⟩ ⟨"img_1_a", "u", 100, 200, 240, 240, 0⟩
            60 150 1 1 0) 1 0)
        ⟨52, 137, 416, 416⟩ :=
  ⟨clamped_commits_spec.1 ⟨52, 137, 416, 416⟩ ⟨"img_1_a", "u", 100, 200, 240, 240, 0⟩
      (-50) (-50) (by norm_num) (by norm_num) (by norm_num) (by norm_num),
    clamped_commits_spec.2.1 ⟨52, 137, 416, 416⟩ ⟨"img_1_a", "u", 100, 200, 240, 240, 0⟩
      60 150 1 1 (by norm_num) (by norm_num)⟩

/-- C6: a second addToCart trigger while the first is still in flight is a
no-op. Starting from a state whose in-flight flag is clear, the first
trigger sets the flag and its body issues one upload and one cart-add; a
second trigger before the body finishes leaves the state untouched, so
after the body's finally block clears the flag the pair of triggers has
issued exactly one upload and exactly one cart-add call. -/
theorem addToCart_reentrancy_guard (s : CartState) (h : s.isAddingToCart = false) :
    (triggerAddToCart s).isAddingToCart = true ∧
      triggerAddToCart (triggerAddToCart s) = triggerAddToCart s ∧
      (finishAddToCart (triggerAddToCart (triggerAddToCart s))).uploads = s.uploads + 1 ∧
      (finishAddToCart (triggerAddToCart (triggerAddToCart s))).cartAdds = s.cartAdds + 1 ∧
      (finishAddToCart (triggerAddToCart (triggerAddToCart s))).isAddingToCart = false := by
  simp [triggerAddToCart, finishAddToCart, h]

/-- C6 witness: the guard statement at the initial cart state: the pair of
triggers yields exactly one upload and one cart-add. -/
theorem addToCart_reentrancy_guard_witness :
    (triggerAddToCart ⟨false, 0, 0⟩).isAddingToCart = true ∧
      triggerAddToCart (triggerAddToCart ⟨false, 0, 0⟩) = triggerAddToCart ⟨false, 0, 0⟩ ∧
      (finishAddToCart (triggerAddToCart (triggerAddToCart ⟨false, 0, 0⟩))).uploads = 0 + 1 ∧
      (finishAddToCart (triggerAddToCart (triggerAddToCart ⟨false, 0, 0⟩))).cartAdds = 0 + 1 ∧
      (finishAddToCart (triggerAddToCart (triggerAddToCart ⟨false, 0, 0⟩))).isAddingToCart =
        false :=
  addToCart_reentrancy_guard ⟨false, 0, 0⟩ rfl

/-- C9: the uploaded image is a square of side min(240, safeZone.width),
centered in the safe zone on both axes (equal margins), its height never
being compared against safeZone.height; consequently its bounding box lies
within the safe zone exactly when safeZone.height is at least
min(240, safeZone.width). -/
theorem newUploadImage_spec (zone : Rect) (hzw : 0 ≤ zone.width)
    (url : String) (now : ℕ) (rand : String) :
    (newUploadImage zone url now rand).width = min 240 zone.width ∧
      (newUploadImage zone url now rand).height = min 240 zone.width ∧
      (newUploadImage zone url now rand).x - zone.x =
        zone.x + zone.width
          - ((newUploadImage zone url now rand).x + (newUploadImage zone url now rand).width) ∧
      (newUploadImage zone url now rand).y - zone.y =
        zone.y + zone.height
          - ((newUploadImage zone url now rand).y + (newUploadImage zone url now rand).height) ∧
      (rectInZone (imageBBox (newUploadImage zone url now rand) 1 0) zone ↔
        min 240 zone.width ≤ zone.height) := by
  have hw0 : (0 : ℚ) ≤ min 240 zone.width := le_min (by norm_num) hzw
  have hww : min 240 zone.width ≤ zone.width := min_le_right _ _
  refine ⟨rfl, rfl, ?_, ?_, ?_⟩
  · simp only [newUploadImage]
    ring
  · simp only [newUploadImage]
    ring
  · simp only [newUploadImage, imageBBox, rotatedBBox_id _ _ _ _ hw0 hw0, rectInZone]
    constructor
    · intro hc
      have := hc.2.1
      linarith
    · intro hc
      refine ⟨by linarith, by linarith, by linarith, by linarith⟩

/-- C9 witness: the characterisation at the concrete safe zone
(52, 137, 416, 416), where min(240, 416) = 240 fits under the height 416. -/
theorem newUploadImage_spec_witness :
    (newUploadImage ⟨52, 137, 416, 416⟩ "u" 1 "a").width = min 240 416 ∧
      (newUploadImage ⟨52, 137, 416, 416⟩ "u" 1 "a").height = min 240 416 ∧
      (newUploadImage ⟨52, 137, 416, 416⟩ "u" 1 "a").x - 52 =
        52 + 416 - ((newUploadImage ⟨52, 137, 416, 416⟩ "u" 1 "a").x
          + (newUploadImage ⟨52, 137, 416, 416⟩ "u" 1 "a").width) ∧
      (newUploadImage ⟨52, 137, 416, 416⟩ "u" 1 "a").y - 137 =
        137 + 416 - ((newUploadImage ⟨52, 137, 416, 416⟩ "u" 1 "a").y
          + (newUploadImage ⟨52, 137, 416, 416⟩ "u" 1 "a").height) ∧
      (rectInZone (imageBBox (newUploadImage ⟨52, 137, 416, 416⟩ "u" 1 "a") 1 0)
          ⟨52, 137, 416, 416⟩ ↔
        min 240 416 ≤ (416 : ℚ)) :=
  newUploadImage_spec ⟨52, 137, 416, 416⟩ (by norm_num) "u" 1 "a"

/-- Mapping an id-preserving function over the objects keeps the selection
invariant. -/
lemma selectedValid_map {s : Session} {f : DesignObject → DesignObject}
    (hf : ∀ o, objId (f o) = objId o) (h : SelectedValid s) :
    SelectedValid { s with objects := s.objects.map f } := by
  intro i hi
  obtain ⟨o, ho, hid⟩ := h i hi
  exact ⟨f o, List.mem_map_of_mem f ho, (hf o).trans hid⟩

/-- Every handler step preserves the selection invariant. -/
lemma step_preserves_selectedValid {s t : Session} (hst : Step s t)
    (h : SelectedValid s) : SelectedValid t := by
  cases hst with
  | upload zone url now rand s =>
    intro i hi
    simp only [uploadImage, Option.some.injEq] at hi
    exact ⟨DesignObject.image (newUploadImage zone url now rand),
      List.mem_append_right _ (List.mem_singleton.mpr rfl), hi⟩
  | text zone now rand s =>
    intro i hi
    simp only [addText, Option.some.injEq] at hi
    exact ⟨DesignObject.text (newTextItem zone now rand),
      List.mem_append_right _ (List.mem_singleton.mpr rfl), hi⟩
  | selectObject s o ho =>
    intro i hi
    simp only [Option.some.injEq] at hi
    exact ⟨o, ho, hi⟩
  | deselect s =>
    intro i hi
    simp at hi
  | delete s =>
    cases hsel : s.selectedId with
    | none =>
      simpa [deleteSelected, hsel] using h
    | some j =>
      intro i hi
      simp [deleteSelected, hsel] at hi
  | centerH zone s =>
    cases hsel : s.selectedId with
    | none => simpa [centerHorizontally, hsel] using h
    | some j =>
      simp only [centerHorizontally, hsel]
      rw [← hsel]
      refine selectedValid_map ?_ h
      intro o
      cases o <;> split <;> rfl
  | centerV zone s =>
    cases hsel : s.selectedId with
    | none => simpa [centerVertically, hsel] using h
    | some j =>
      simp only [centerVertically, hsel]
      rw [← hsel]
      refine selectedValid_map ?_ h
      intro o
      cases o <;> split <;> rfl
  | updateText p s =>
    cases hsel : s.selectedId with
    | none => simpa [updateSelectedText, hsel] using h
    | some j =>
      simp only [updateSelectedText, hsel]
      rw [← hsel]
      refine selectedValid_map ?_ h
      intro o
      cases o <;> split <;> rfl
  | commit s next =>
    refine selectedValid_map ?_ h
    intro o
    by_cases ho : objId o = objId next <;> simp [ho]

/-- Every session reachable from the empty one satisfies the selection
invariant. -/
lemma reachable_selectedValid {s : Session} (h : Reachable s) : SelectedValid s := by
  unfold Reachable at h
  induction h with
  | refl =>
    intro i hi
    simp [initialSession] at hi
  | tail _ hbc ih => exact step_preserves_selectedValid hbc ih

/-- C7: removing the selected object clears the selection, removing any
other object leaves the selection unchanged, the code's deleteSelected is
exactly removeObject at the selected id, and in every reachable session a
set selectedId references an object present in the objects list. -/
theorem selection_integrity :
    (∀ (s : Session) (i : String), s.selectedId = some i →
        (removeObject s i).selectedId = none) ∧
      (∀ (s : Session) (j : String), s.selectedId ≠ some j →
        (removeObject s j).selectedId = s.selectedId) ∧
      (∀ (s : Session) (i : String), s.selectedId = some i →
        deleteSelected s = removeObject s i) ∧
      (∀ s : Session, Reachable s → SelectedValid s) := by
  refine ⟨?_, ?_, ?_, fun s h => reachable_selectedValid h⟩
  · intro s i hi
    simp [removeObject, hi]
  · intro s j hj
    simp [removeObject, hj]
  · intro s i hi
    simp [deleteSelected, removeObject, hi]

/-- C7 witness: the three removal statements on a concrete one-object
session, and the invariant on the (reachable) empty session. -/
theorem selection_integrity_witness :
    (removeObject ⟨[DesignObject.text ⟨"txt_1_a", "Your text", 260, 340, 0, 36, "Roboto",
        "#ffffff"⟩], some "txt_1_a"⟩ "txt_1_a").selectedId = none ∧
      (removeObject ⟨[DesignObject.text ⟨"txt_1_a", "Your text", 260, 340, 0, 36, "Roboto",
          "#ffffff"⟩], some "txt_1_a"⟩ "txt_2_b").selectedId = some "txt_1_a" ∧
      deleteSelected ⟨[DesignObject.text ⟨"txt_1_a", "Your text", 260, 340, 0, 36, "Roboto",
          "#ffffff"⟩], some "txt_1_a"⟩ =
        removeObject ⟨[DesignObject.text ⟨"txt_1_a", "Your text", 260, 340, 0, 36, "Roboto",
          "#ffffff"⟩], some "txt_1_a"⟩ "txt_1_a" ∧
      SelectedValid initialSession :=
  ⟨selection_integrity.1 _ "txt_1_a" rfl,
    selection_integrity.2.1 _ "txt_2_b" (by simp),
    selection_integrity.2.2.1 _ "txt_1_a" rfl,
    selection_integrity.2.2.2 initialSession Relation.ReflTransGen.refl⟩

/-- C8: id uniqueness fails on the code. The generated id is built from
Date.now() and a random hex suffix with no collision check against the
existing objects, so two uploads sharing the same millisecond and random
suffix produce the same id: the session then holds two objects with the
identical id img_5_ab. -/
theorem addImage_id_collision :
    (uploadImage ⟨52, 137, 416, 416⟩ "u2" 5 "ab"
        (uploadImage ⟨52, 137, 416, 416⟩ "u1" 5 "ab" initialSession)).objects.map objId =
      ["img_5_ab", "img_5_ab"] := rfl

/-- C8 (amended): addImage and addText append the new object at the end of
the list and set selectedId to its id; the new id is distinct from every
existing object's id whenever the freshly generated id string (built from
the call's millisecond timestamp and random suffix) does not already occur
in the session — best-effort uniqueness, not guaranteed; image ids and
text ids can never collide with each other (distinct prefixes). -/
theorem add_object_spec :
    (∀ (zone : Rect) (url : String) (now : ℕ) (rand : String) (s : Session),
        (uploadImage zone url now rand s).objects =
            s.objects ++ [DesignObject.image (newUploadImage zone url now rand)] ∧
          (uploadImage zone url now rand s).selectedId =
            some (objId (DesignObject.image (newUploadImage zone url now rand))) ∧
          ((∀ o ∈ s.objects, objId o ≠ mkImageId now rand) →
            ∀ o ∈ s.objects,
              objId o ≠ objId (DesignObject.image (newUploadImage zone url now rand)))) ∧
      (∀ (zone : Rect) (now : ℕ) (rand : String) (s : Session),
        (addText zone now rand s).objects =
            s.objects ++ [DesignObject.text (newTextItem zone now rand)] ∧
          (addText zone now rand s).selectedId =
            some (objId (DesignObject.text (newTextItem zone now rand))) ∧
          ((∀ o ∈ s.objects, objId o ≠ mkTextId now rand) →
            ∀ o ∈ s.objects,
              objId o ≠ objId (DesignObject.text (newTextItem zone now rand)))) ∧
      (∀ (now nowx : ℕ) (rand randx : String), mkImageId now rand ≠ mkTextId nowx randx) := by
  refine ⟨?_, ?_, ?_⟩
  · intro zone url now rand s
    exact ⟨rfl, rfl, fun h => h⟩
  · intro zone now rand s
    exact ⟨rfl, rfl, fun h => h⟩
  · intro now nowx rand randx h
    have hd := congrArg String.data h
    simp only [mkImageId, mkTextId, String.data_append, List.cons_append,
      List.nil_append] at hd
    simp at hd

/-- C8 witness: the append-and-select behaviour and the conditional
freshness on the empty session, and prefix disjointness at equal
timestamp and random suffix. -/
theorem add_object_spec_witness :
    (uploadImage ⟨52, 137, 416, 416⟩ "u" 7 "cd" initialSession).selectedId =
        some (objId (DesignObject.image (newUploadImage ⟨52, 137, 416, 416⟩ "u" 7 "cd"))) ∧
      (∀ o ∈ initialSession.objects,
        objId o ≠ objId (DesignObject.image (newUploadImage ⟨52, 137, 416, 416⟩ "u" 7 "cd"))) ∧
      mkImageId 5 "ab" ≠ mkTextId 5 "ab" :=
  ⟨(add_object_spec.1 ⟨52, 137, 416, 416⟩ "u" 7 "cd" initialSession).2.1,
    (add_object_spec.1 ⟨52, 137, 416, 416⟩ "u" 7 "cd" initialSession).2.2
      (by simp [initialSession]),
    add_object_spec.2.2 5 5 "ab" "ab"⟩

/-- C10: the first-match clause of the claim fails for a requested
variantId of 0, because the code tests the id with JavaScript falsiness:
with variants of ids 1 and 0, requesting variantId 0 returns the id-1
first variant although a variant with the requested id is present. -/
theorem pickVariant_zero_id_miss :
    pickVariant ⟨[⟨1, 0, 0, 0, 0, 0⟩, ⟨0, 0, 0, 0, 0, 0⟩]⟩ (some 0) =
        some ⟨1, 0, 0, 0, 0, 0⟩ ∧
      (⟨0, 0, 0, 0, 0, 0⟩ : Variant) ∈
        ([⟨1, 0, 0, 0, 0, 0⟩, ⟨0, 0, 0, 0, 0, 0⟩] : List Variant) ∧
      Variant.id ⟨1, 0, 0, 0, 0, 0⟩ ≠ 0 :=
  ⟨rfl, by simp, by decide⟩

/-- C10 (amended): pickVariant returns none exactly when the variants list
is empty; an absent requested id, a requested id of 0 (treated as absent
by the falsiness test), or an id matching no variant all fall back to the
first variant; a nonzero requested id matching some variant returns the
first matching variant. -/
theorem pickVariant_spec :
    (∀ (p : Product) (vid : Option ℤ), pickVariant p vid = none ↔ p.variants = []) ∧
      (∀ (p : Product) (v : Variant) (vs : List Variant), p.variants = v :: vs →
        pickVariant p none = some v ∧
          pickVariant p (some 0) = some v ∧
          ∀ n : ℤ, n ≠ 0 → (∀ w ∈ p.variants, w.id ≠ n) →
            pickVariant p (some n) = some v) ∧
      (∀ (p : Product) (n : ℤ) (w : Variant), n ≠ 0 →
        p.variants.find? (fun u => u.id == n) = some w →
        pickVariant p (some n) = some w) := by
  refine ⟨?_, ?_, ?_⟩
  · intro p vid
    cases hv : p.variants with
    | nil => cases vid <;> simp [pickVariant, hv]
    | cons v vs =>
      cases vid with
      | none => simp [pickVariant, hv]
      | some n => by_cases hn : n = 0 <;> simp [pickVariant, hv, hn]
  · intro p v vs hv
    refine ⟨by simp [pickVariant, hv], by simp [pickVariant, hv], ?_⟩
    intro n hn hmiss
    have hf : (v :: vs).find? (fun u => u.id == n) = none := by
      rw [List.find?_eq_none]
      intro x hx
      simp only [beq_iff_eq]
      exact hmiss x (hv ▸ hx)
    simp [pickVariant, hv, hn, hf]
  · intro p n w hn hfind
    cases hv : p.variants with
    | nil => rw [hv] at hfind; simp at hfind
    | cons v vs =>
      rw [hv] at hfind
      simp [pickVariant, hv, hn, hfind]

/-- C10 witness: the characterisation at concrete products: the empty
variants list yields none; with variants of ids 1 and 0, an absent id and
an unmatched id 5 both yield the first variant, and requesting id 1
yields the id-1 variant. -/
theorem pickVariant_spec_witness :
    pickVariant ⟨[]⟩ (some 3) = none ∧
      pickVariant ⟨[⟨1, 0, 0, 0, 0, 0⟩, ⟨0, 0, 0, 0, 0, 0⟩]⟩ none =
        some ⟨1, 0, 0, 0, 0, 0⟩ ∧
      pickVariant ⟨[⟨1, 0, 0, 0, 0, 0⟩, ⟨0, 0, 0, 0, 0, 0⟩]⟩ (some 5) =
        some ⟨1, 0, 0, 0, 0, 0⟩ ∧
      pickVariant ⟨[⟨1, 0, 0, 0, 0, 0⟩, ⟨0, 0, 0, 0, 0, 0⟩]⟩ (some 1) =
        some ⟨1, 0, 0, 0, 0, 0⟩ :=
  ⟨(pickVariant_spec.1 ⟨[]⟩ (some 3)).mpr rfl,
    (pickVariant_spec.2.1 ⟨[⟨1, 0, 0, 0, 0, 0⟩, ⟨0, 0, 0, 0, 0, 0⟩]⟩ ⟨1, 0, 0, 0, 0, 0⟩
        [⟨0, 0, 0, 0, 0, 0⟩] rfl).1,
    (pickVariant_spec.2.1 ⟨[⟨1, 0, 0, 0, 0, 0⟩, ⟨0, 0, 0, 0, 0, 0⟩]⟩ ⟨1, 0, 0, 0, 0, 0⟩
        [⟨0, 0, 0, 0, 0, 0⟩] rfl).2.2 5 (by decide) (by decide),
    pickVariant_spec.2.2 ⟨[⟨1, 0, 0, 0, 0, 0⟩, ⟨0, 0, 0, 0, 0, 0⟩]⟩ 1 ⟨1, 0, 0, 0, 0, 0⟩
      (by decide) rfl⟩

end Bosma
